import Mathlib

/-!
Verification of the socket-dashboard core (`src/app.rs`, `src/errors.rs`)
of the `poke` repository, as a shallow embedding in Lean 4.

Conventions of the embedding:
* Rust `Vec<T>` becomes `List T`; `Vec::push` appends at the end.
* Rust `usize` becomes `Nat`; `usize` subtraction that can underflow is
  modelled by `checkedSub`, which returns `Except Unit Nat` — `Except.error ()`
  stands for the arithmetic-underflow panic of a debug build.
* Operations that can panic return `Except Unit _`.
* External collaborators (the `netstat2` socket enumeration and the
  `sysinfo` process table) are passed in as explicit arguments.
* Values the code only ever formats through `Display`/`Debug` of an external
  crate (IP addresses, TCP state, process fields) are carried as the strings
  those instances would render.
-/

/-- TCP socket record as used by `app.rs` (fields of `netstat2::TcpSocketInfo`
that the code reads). Addresses and state carry their `Display` rendering. -/
structure TcpSocketInfo where
  local_addr : String
  local_port : Nat
  remote_addr : String
  remote_port : Nat
  state : String
deriving DecidableEq, Repr

/-- UDP socket record (fields of `netstat2::UdpSocketInfo` that the code reads). -/
structure UdpSocketInfo where
  local_addr : String
  local_port : Nat
deriving DecidableEq, Repr

/-- `netstat2::ProtocolSocketInfo`: tagged union of a TCP or a UDP record. -/
inductive ProtocolSocketInfo where
  | Tcp (info : TcpSocketInfo)
  | Udp (info : UdpSocketInfo)
deriving DecidableEq, Repr

/-- `netstat2::SocketInfo`: one raw enumeration entry, a protocol record
together with its associated process ids. -/
structure SocketInfo where
  protocol_socket_info : ProtocolSocketInfo
  associated_pids : List Nat
deriving DecidableEq, Repr

/-- `SocketsContainer` from `app.rs`: the two per-protocol sequences. -/
structure SocketsContainer where
  tcp_sockets : List (TcpSocketInfo × List Nat)
  udp_sockets : List (UdpSocketInfo × List Nat)
deriving DecidableEq, Repr

/-- `SocketsContainer::new`. -/
def SocketsContainer.new : SocketsContainer :=
  { tcp_sockets := [], udp_sockets := [] }

/-- One fold step of `split_sockets`: route the entry into the TCP or the
UDP accumulator according to its tag (`Vec::push` = append at the end). -/
def split_step (res_tuple : List (TcpSocketInfo × List Nat) × List (UdpSocketInfo × List Nat))
    (si : SocketInfo) :
    List (TcpSocketInfo × List Nat) × List (UdpSocketInfo × List Nat) :=
  match si.protocol_socket_info with
  | ProtocolSocketInfo.Tcp tcp_socket_info =>
      (res_tuple.1 ++ [(tcp_socket_info, si.associated_pids)], res_tuple.2)
  | ProtocolSocketInfo.Udp udp_socket_info =>
      (res_tuple.1, res_tuple.2 ++ [(udp_socket_info, si.associated_pids)])

/-- `split_sockets` from `app.rs`: a single fold over the raw enumeration,
routing each entry by protocol tag.  (`with_capacity`/`shrink_to_fit` only
manage capacity and have no observable effect on the sequences.) -/
def split_sockets (sockets_info : List SocketInfo) : SocketsContainer :=
  let sockets_tuple := sockets_info.foldl split_step ([], [])
  { tcp_sockets := sockets_tuple.1, udp_sockets := sockets_tuple.2 }

/-- Projection used to state stability: the TCP payload of an entry, when
it is TCP-tagged. -/
def tcpOf (si : SocketInfo) : Option (TcpSocketInfo × List Nat) :=
  match si.protocol_socket_info with
  | ProtocolSocketInfo.Tcp t => some (t, si.associated_pids)
  | ProtocolSocketInfo.Udp _ => none

/-- Projection used to state stability: the UDP payload of an entry, when
it is UDP-tagged. -/
def udpOf (si : SocketInfo) : Option (UdpSocketInfo × List Nat) :=
  match si.protocol_socket_info with
  | ProtocolSocketInfo.Tcp _ => none
  | ProtocolSocketInfo.Udp u => some (u, si.associated_pids)

/-- Checked `usize` subtraction: `Except.error ()` models the arithmetic
underflow panic a Rust debug build raises on `a - b` with `b > a`. -/
def checkedSub (a b : Nat) : Except Unit Nat :=
  if b ≤ a then Except.ok (a - b) else Except.error ()

/-- `up_select_counter` from `app.rs`.  `current > 0` guards `current - 1`,
but the wrap branch computes `base_collection_len - 1` unguarded, which can
underflow (panic). -/
def up_select_counter (current : Option Nat) (base_collection_len : Nat) :
    Except Unit (Option Nat) :=
  match current with
  | some current =>
      if current > 0 then Except.ok (some (current - 1))
      else (checkedSub base_collection_len 1).map fun m => some m
  | none => Except.ok (some 0)

/-- `down_select_counter` from `app.rs`.  The comparison
`current >= base_collection_len - 1` computes `base_collection_len - 1`
unguarded, which can underflow (panic). -/
def down_select_counter (current : Option Nat) (base_collection_len : Nat) :
    Except Unit (Option Nat) :=
  match current with
  | some current =>
      (checkedSub base_collection_len 1).map fun m =>
        if current ≥ m then some 0 else some (current + 1)
  | none => Except.ok (some 0)

/-- `SelectedType` from `app.rs`: which protocol list has focus. -/
inductive SelectedType where
  | Nothing
  | Tcp
  | Udp
deriving DecidableEq, Repr

/-- `SelectedType::left`: move focus left, saturating at `Nothing`. -/
def SelectedType.left : SelectedType → SelectedType
  | SelectedType.Nothing => SelectedType.Nothing
  | SelectedType.Tcp => SelectedType.Nothing
  | SelectedType.Udp => SelectedType.Tcp

/-- `SelectedType.right` : move focus right, saturating at `Udp`. -/
def SelectedType.right : SelectedType → SelectedType
  | SelectedType.Nothing => SelectedType.Tcp
  | SelectedType.Tcp => SelectedType.Udp
  | SelectedType.Udp => SelectedType.Udp

/-- `tui::style::Color`, restricted to the variants `App::new` uses. -/
inductive Color where
  | White
  | Yellow
  | Magenta
  | Red
deriving DecidableEq, Repr

/-- `tui::style::Style`, restricted to the foreground color set by `App::new`. -/
structure Style where
  fg : Color
deriving DecidableEq, Repr

/-- `ConnectionToolsError` from `errors.rs`. -/
inductive ConnectionToolsError where
  | FailToGetSocketsInfo (message : String)
deriving DecidableEq, Repr

/-- Rust `Debug` rendering of a `Vec<u32>` / `&[u32]`, e.g. `[1]`, `[2, 3]`. -/
def fmtPids (pids : List Nat) : String :=
  "[" ++ String.intercalate ", " (pids.map toString) ++ "]"

/-- `tcp_socket_to_string` from `app.rs` (note the spaces the format string
puts around the colons and before the remote bracket). -/
def tcp_socket_to_string (tcp_si : TcpSocketInfo) (associated_pids : List Nat) : String :=
  "local[" ++ tcp_si.local_addr ++ " : " ++ toString tcp_si.local_port ++
  "] -> remote [" ++ tcp_si.remote_addr ++ " : " ++ toString tcp_si.remote_port ++
  "]; pids" ++ fmtPids associated_pids ++ "; state: " ++ tcp_si.state

/-- `udp_socket_to_string` from `app.rs`. -/
def udp_socket_to_string (udp_si : UdpSocketInfo) (associated_pids : List Nat) : String :=
  "local[" ++ udp_si.local_addr ++ " : " ++ toString udp_si.local_port ++
  "] -> *:* pids" ++ fmtPids associated_pids

/-- The fields of `sysinfo`'s per-process record that
`App::selected_socket_info` formats; each carries the string its
`Display`/`Debug` instance would render, numbers stay numeric. -/
structure ProcessInfo where
  name : String
  status : String
  cmd : String
  exe : String
  environ : String
  memory : Nat
  virtual_memory : Nat
  start_time : Nat
  cpu_usage : String
deriving DecidableEq, Repr

instance {ε α : Type} [DecidableEq ε] [DecidableEq α] : DecidableEq (Except ε α) := by
  intro a b
  cases a with
  | ok x =>
      cases b with
      | ok y => exact decidable_of_iff (x = y) (by constructor <;> (intro h; cases h; rfl))
      | error y => exact isFalse (by intro h; cases h)
  | error x =>
      cases b with
      | ok y => exact isFalse (by intro h; cases h)
      | error y => exact decidable_of_iff (x = y) (by constructor <;> (intro h; cases h; rfl))

/-- `App` from `app.rs`. -/
structure App where
  sockets_info_res : Except ConnectionToolsError SocketsContainer
  tcp_sockets : List String
  udp_sockets : List String
  tcp_sockets_count : Nat
  udp_sockets_count : Nat
  selected_type : SelectedType
  tcp_selection : Option Nat
  udp_selection : Option Nat
  info_style : Style
  warning_style : Style
  error_style : Style
  critical_style : Style
  should_quit : Bool
deriving DecidableEq, Repr

/-- `App::new`. -/
def App.new : App :=
  { sockets_info_res := Except.ok SocketsContainer.new,
    tcp_sockets := [],
    udp_sockets := [],
    tcp_sockets_count := 0,
    udp_sockets_count := 0,
    selected_type := SelectedType.Nothing,
    tcp_selection := none,
    udp_selection := none,
    info_style := { fg := Color.White },
    warning_style := { fg := Color.Yellow },
    error_style := { fg := Color.Magenta },
    critical_style := { fg := Color.Red },
    should_quit := false }

/-- `App::update_sockets`.  The external call
`get_sockets_info(af_flags, proto_flags)` is passed in as
`get_sockets_info_res` (its error rendered to a message string by
`format!`). -/
def App.update_sockets (app : App) (get_sockets_info_res : Except String (List SocketInfo)) :
    App :=
  let sockets_info :=
    get_sockets_info_res.mapError fun err => ConnectionToolsError.FailToGetSocketsInfo err
  let tcp_and_upd_sockets := sockets_info.map split_sockets
  let res := tcp_and_upd_sockets
  { app with
    sockets_info_res := res,
    tcp_sockets_count :=
      match res with
      | Except.ok sockets_container => sockets_container.tcp_sockets.length
      | Except.error _ => 0,
    udp_sockets_count :=
      match res with
      | Except.ok sockets_container => sockets_container.udp_sockets.length
      | Except.error _ => 0,
    tcp_sockets :=
      match res with
      | Except.ok sockets_container =>
          sockets_container.tcp_sockets.map fun p => tcp_socket_to_string p.1 p.2
      | Except.error _ => [],
    udp_sockets :=
      match res with
      | Except.ok sockets_container =>
          sockets_container.udp_sockets.map fun p => udp_socket_to_string p.1 p.2
      | Except.error _ => [] }

/-- `App::on_up`; propagates a panic of `up_select_counter`. -/
def App.on_up (app : App) : Except Unit App :=
  match app.selected_type with
  | SelectedType.Nothing => Except.ok app
  | SelectedType.Tcp =>
      (up_select_counter app.tcp_selection app.tcp_sockets_count).map fun r =>
        { app with tcp_selection := r }
  | SelectedType.Udp =>
      (up_select_counter app.udp_selection app.udp_sockets_count).map fun r =>
        { app with udp_selection := r }

/-- `App::on_down`; propagates a panic of `down_select_counter`. -/
def App.on_down (app : App) : Except Unit App :=
  match app.selected_type with
  | SelectedType.Nothing => Except.ok app
  | SelectedType.Tcp =>
      (down_select_counter app.tcp_selection app.tcp_sockets_count).map fun r =>
        { app with tcp_selection := r }
  | SelectedType.Udp =>
      (down_select_counter app.udp_selection app.udp_sockets_count).map fun r =>
        { app with udp_selection := r }

/-- `App::selected_tcp`. -/
def App.selected_tcp (app : App) : Option Nat :=
  match app.selected_type with
  | SelectedType.Udp => none
  | SelectedType.Nothing => none
  | SelectedType.Tcp => app.tcp_selection

/-- `App::selected_udp`. -/
def App.selected_udp (app : App) : Option Nat :=
  match app.selected_type with
  | SelectedType.Nothing => none
  | SelectedType.Tcp => none
  | SelectedType.Udp => app.udp_selection

/-- `App::on_right`. -/
def App.on_right (app : App) : App :=
  { app with selected_type := app.selected_type.right }

/-- `App::on_left`. -/
def App.on_left (app : App) : App :=
  { app with selected_type := app.selected_type.left }

/-- `App::on_key`. -/
def App.on_key (app : App) (c : Char) : App :=
  match c with
  | 'q' => { app with should_quit := true }
  | _ => app

/-- `App::on_tick`: delegates to `update_sockets`; takes the same external
enumeration result. -/
def App.on_tick (app : App) (get_sockets_info_res : Except String (List SocketInfo)) : App :=
  app.update_sockets get_sockets_info_res

/-- The multi-line block `selected_socket_info` formats for one resolved pid. -/
def pidInfoBlock (pid : Nat) (p : ProcessInfo) : String :=
  "pid " ++ toString pid ++ "::\n" ++
  "name " ++ p.name ++ "\n" ++
  "status: " ++ p.status ++ "\n" ++
  "cmd: " ++ p.cmd ++ "\n" ++
  "exe: " ++ p.exe ++ "\n" ++
  "environ: " ++ p.environ ++ "\n" ++
  "memory: " ++ toString p.memory ++ "\n" ++
  "virtual memory: " ++ toString p.virtual_memory ++ "\n" ++
  "start time: " ++ toString p.start_time ++ "\n" ++
  "cpu usage: " ++ p.cpu_usage

/-- `App::selected_socket_info`.  The `sysinfo` process table (after
`refresh_all`) is passed in as `get_process`.  In the TCP branch the code
indexes `tcp_sockets[self.tcp_selection.unwrap_or(0)]`; an out-of-bounds
index is a panic, modelled as `Except.error ()`. -/
def App.selected_socket_info (app : App) (get_process : Nat → Option ProcessInfo) :
    Except Unit String :=
  match app.selected_type with
  | SelectedType.Nothing => Except.ok "choose socket with arrow keys"
  | SelectedType.Tcp =>
      match app.sockets_info_res with
      | Except.error _ => Except.ok "fail to get sockets info"
      | Except.ok sockets_info =>
          match sockets_info.tcp_sockets.get? (app.tcp_selection.getD 0) with
          | none => Except.error ()
          | some selected_socket =>
              let pids := selected_socket.2
              let pids_info :=
                String.join (pids.map fun pid =>
                  match get_process pid with
                  | some proc => pidInfoBlock pid proc
                  | none => "todo: fix me")
              Except.ok pids_info
  | SelectedType.Udp => Except.ok "todo: implement in the same way as for TCP"

/-- Iterate a (possibly panicking) cursor step `k` times against a fixed
list length. -/
def iterStep (f : Option Nat → Nat → Except Unit (Option Nat)) :
    Nat → Option Nat → Nat → Except Unit (Option Nat)
  | 0, cur, _ => Except.ok cur
  | Nat.succ k, cur, count =>
      match f cur count with
      | Except.error e => Except.error e
      | Except.ok cur2 => iterStep f k cur2 count

/-- §8 scenario TCP record. -/
def scenarioTcp : TcpSocketInfo :=
  { local_addr := "127.0.0.1", local_port := 80,
    remote_addr := "0.0.0.0", remote_port := 0, state := "LISTEN" }

/-- Concrete state for exercising `cursor_never_unset`: TCP focused, three
TCP rows, both cursors set. -/
def appC10 : App :=
  { App.new with
      selected_type := SelectedType.Tcp,
      tcp_sockets_count := 3, udp_sockets_count := 2,
      tcp_selection := some 1, udp_selection := some 0 }

lemma split_foldl_eq (l : List SocketInfo) :
    ∀ acc : List (TcpSocketInfo × List Nat) × List (UdpSocketInfo × List Nat),
      l.foldl split_step acc =
        (acc.1 ++ l.filterMap tcpOf, acc.2 ++ l.filterMap udpOf) := by
  induction l with
  | nil => intro acc; simp
  | cons si rest ih =>
      intro acc
      cases h : si.protocol_socket_info with
      | Tcp t =>
          simp [List.foldl_cons, split_step, h, List.filterMap_cons, tcpOf, udpOf, ih,
            List.append_assoc]
      | Udp u =>
          simp [List.foldl_cons, split_step, h, List.filterMap_cons, tcpOf, udpOf, ih,
            List.append_assoc]

lemma split_sockets_eq (l : List SocketInfo) :
    split_sockets l = { tcp_sockets := l.filterMap tcpOf, udp_sockets := l.filterMap udpOf } := by
  simp [split_sockets, split_foldl_eq]

lemma split_lengths (l : List SocketInfo) :
    (l.filterMap tcpOf).length + (l.filterMap udpOf).length = l.length := by
  induction l with
  | nil => simp
  | cons si rest ih =>
      cases h : si.protocol_socket_info with
      | Tcp t => simp [List.filterMap_cons, tcpOf, udpOf, h]; omega
      | Udp u => simp [List.filterMap_cons, tcpOf, udpOf, h]; omega

/-- C1: for every input sequence, `|tcp| + |udp| = |input|`, and every input
element appears in the output sequence matching its protocol tag (TCP-tagged
entries land in `tcp_sockets`, UDP-tagged ones in `udp_sockets`; the two
sequences hold values of disjoint types, so no element is in both). -/
theorem split_sockets_partition_complete (l : List SocketInfo) :
    (split_sockets l).tcp_sockets.length + (split_sockets l).udp_sockets.length = l.length ∧
    ∀ si ∈ l,
      (∀ t, si.protocol_socket_info = ProtocolSocketInfo.Tcp t →
        (t, si.associated_pids) ∈ (split_sockets l).tcp_sockets) ∧
      (∀ u, si.protocol_socket_info = ProtocolSocketInfo.Udp u →
        (u, si.associated_pids) ∈ (split_sockets l).udp_sockets) := by
  rw [split_sockets_eq]
  refine ⟨split_lengths l, ?_⟩
  intro si hsi
  constructor
  · intro t ht
    exact List.mem_filterMap.mpr ⟨si, hsi, by simp [tcpOf, ht]⟩
  · intro u hu
    exact List.mem_filterMap.mpr ⟨si, hsi, by simp [udpOf, hu]⟩

/-- Witness for `split_sockets_partition_complete` at the concrete scenario
input of spec §8. -/
theorem split_sockets_partition_complete_witness :
    let si : SocketInfo :=
      { protocol_socket_info :=
          ProtocolSocketInfo.Tcp
            { local_addr := "127.0.0.1", local_port := 80,
              remote_addr := "0.0.0.0", remote_port := 0, state := "LISTEN" },
        associated_pids := [1] }
    let l : List SocketInfo :=
      [si,
       { protocol_socket_info :=
           ProtocolSocketInfo.Udp { local_addr := "0.0.0.0", local_port := 53 },
         associated_pids := [] }]
    (split_sockets l).tcp_sockets.length + (split_sockets l).udp_sockets.length = l.length ∧
      (∀ t, si.protocol_socket_info = ProtocolSocketInfo.Tcp t →
        (t, si.associated_pids) ∈ (split_sockets l).tcp_sockets) := by
  intro si l
  refine ⟨(split_sockets_partition_complete l).1, ?_⟩
  exact fun t ht => ((split_sockets_partition_complete l).2 si (by simp [l])).1 t ht

/-- C2: `split_sockets` is a stable partition: the TCP output equals the
sub-sequence of TCP-tagged input payloads in input order, and likewise
for UDP. -/
theorem split_sockets_order_preserving (l : List SocketInfo) :
    (split_sockets l).tcp_sockets = l.filterMap tcpOf ∧
    (split_sockets l).udp_sockets = l.filterMap udpOf := by
  rw [split_sockets_eq]
  exact ⟨rfl, rfl⟩

lemma iterStep_succ_ok (f : Option Nat → Nat → Except Unit (Option Nat)) (k : Nat)
    (cur cur2 : Option Nat) (count : Nat) (h : f cur count = Except.ok cur2) :
    iterStep f (k + 1) cur count = iterStep f k cur2 count := by
  rw [iterStep, h]

lemma down_step_mod (N c : Nat) (hN : 0 < N) (hc : c < N) :
    down_select_counter (some c) N = Except.ok (some ((c + 1) % N)) := by
  unfold down_select_counter checkedSub
  have h1 : 1 ≤ N := hN
  simp only [if_pos h1, Except.map]
  by_cases h : c ≥ N - 1
  · have hcN : c = N - 1 := by omega
    have : (c + 1) % N = 0 := by
      subst hcN
      have : N - 1 + 1 = N := by omega
      rw [this, Nat.mod_self]
    simp [h, this]
  · have hlt : c + 1 < N := by omega
    simp [h, Nat.mod_eq_of_lt hlt]

lemma up_step_mod (N c : Nat) (hN : 0 < N) (hc : c < N) :
    up_select_counter (some c) N = Except.ok (some ((c + (N - 1)) % N)) := by
  unfold up_select_counter checkedSub
  have h1 : 1 ≤ N := hN
  by_cases h : c > 0
  · have : (c + (N - 1)) % N = c - 1 := by
      have hrepr : c + (N - 1) = (c - 1) + 1 * N := by omega
      rw [hrepr, Nat.add_mul_mod_self_right]
      exact Nat.mod_eq_of_lt (by omega)
    simp [h, this]
  · have hc0 : c = 0 := by omega
    have : (c + (N - 1)) % N = N - 1 := by
      subst hc0
      simp [Nat.mod_eq_of_lt (show N - 1 < N by omega)]
    simp [h, if_pos h1, Except.map, this]

lemma iter_down_mod (N : Nat) (hN : 0 < N) :
    ∀ (k c : Nat), c < N →
      iterStep down_select_counter k (some c) N = Except.ok (some ((c + k) % N)) := by
  intro k
  induction k with
  | zero => intro c hc; simp [iterStep, Nat.mod_eq_of_lt hc]
  | succ k ih =>
      intro c hc
      rw [iterStep_succ_ok _ k _ _ _ (down_step_mod N c hN hc)]
      rw [ih ((c + 1) % N) (Nat.mod_lt _ hN)]
      congr 2
      rw [Nat.mod_add_mod]
      congr 1
      omega

lemma iter_up_mod (N : Nat) (hN : 0 < N) :
    ∀ (k c : Nat), c < N →
      iterStep up_select_counter k (some c) N = Except.ok (some ((c + k * (N - 1)) % N)) := by
  intro k
  induction k with
  | zero => intro c hc; simp [iterStep, Nat.mod_eq_of_lt hc]
  | succ k ih =>
      intro c hc
      rw [iterStep_succ_ok _ k _ _ _ (up_step_mod N c hN hc)]
      rw [ih ((c + (N - 1)) % N) (Nat.mod_lt _ hN)]
      congr 2
      rw [Nat.mod_add_mod]
      ring_nf

/-- C8: for every list length `N > 0` and every set cursor `c < N`, applying
the down step `N` times returns the cursor to `c` without panicking, and
likewise for the up step. -/
theorem cursor_wraparound (N c : Nat) (hN : 0 < N) (hc : c < N) :
    iterStep down_select_counter N (some c) N = Except.ok (some c) ∧
    iterStep up_select_counter N (some c) N = Except.ok (some c) := by
  constructor
  · rw [iter_down_mod N hN N c hc]
    congr 2
    rw [Nat.add_mod_right]
    exact Nat.mod_eq_of_lt hc
  · rw [iter_up_mod N hN N c hc]
    congr 2
    have hrepr : c + N * (N - 1) = c + (N - 1) * N := by ring
    rw [hrepr, Nat.add_mul_mod_self_right]
    exact Nat.mod_eq_of_lt hc

/-- Witness for `cursor_wraparound`: a list of length 3, cursor 1. -/
theorem cursor_wraparound_witness :
    iterStep down_select_counter 3 (some 1) 3 = Except.ok (some 1) ∧
    iterStep up_select_counter 3 (some 1) 3 = Except.ok (some 1) :=
  cursor_wraparound 3 1 (by decide) (by decide)

/-- C3 (evaluation at the failing inputs): with focus on TCP and
`tcp_sockets_count = 0`, `on_up`/`on_down` with a set cursor underflow
`count - 1` (panic), and with an unset cursor they set it to `some 0`
instead of leaving it unset. -/
theorem on_up_down_empty_list_panics :
    ({ App.new with selected_type := SelectedType.Tcp, tcp_selection := some 0 } : App).on_up
      = Except.error () ∧
    ({ App.new with selected_type := SelectedType.Tcp, tcp_selection := some 0 } : App).on_down
      = Except.error () ∧
    (({ App.new with selected_type := SelectedType.Tcp } : App).on_up).map
      (fun a => a.tcp_selection) = Except.ok (some 0) :=
  ⟨rfl, rfl, rfl⟩

/-- C4 (evaluation at the failing inputs): with focus on TCP and a successful
but empty snapshot, `selected_socket_info` indexes `tcp_sockets[0]` out of
bounds (panic); likewise with a stale cursor past the end of the list. -/
theorem selected_socket_info_panics :
    App.selected_socket_info { App.new with selected_type := SelectedType.Tcp }
      (fun _ => none) = Except.error () ∧
    App.selected_socket_info
      { App.new with
          selected_type := SelectedType.Tcp,
          sockets_info_res := Except.ok { tcp_sockets := [(scenarioTcp, [1])], udp_sockets := [] },
          tcp_selection := some 5 }
      (fun _ => none) = Except.error () :=
  ⟨rfl, rfl⟩

/-- C5: when the enumeration collaborator fails, `update_sockets` stores the
wrapped error, empties both display sequences and zeroes both counts
(and, being total, cannot panic). -/
theorem update_sockets_degrades_on_failure (app : App) (msg : String) :
    (app.update_sockets (Except.error msg)).sockets_info_res
      = Except.error (ConnectionToolsError.FailToGetSocketsInfo msg) ∧
    (app.update_sockets (Except.error msg)).tcp_sockets = [] ∧
    (app.update_sockets (Except.error msg)).udp_sockets = [] ∧
    (app.update_sockets (Except.error msg)).tcp_sockets_count = 0 ∧
    (app.update_sockets (Except.error msg)).udp_sockets_count = 0 :=
  ⟨rfl, rfl, rfl, rfl, rfl⟩

/-- C6: `update_sockets` leaves both cursors and the focus unchanged, for
every refresh outcome; it also touches none of the style/quit fields. -/
theorem update_sockets_preserves_cursors (app : App)
    (res : Except String (List SocketInfo)) :
    (app.update_sockets res).tcp_selection = app.tcp_selection ∧
    (app.update_sockets res).udp_selection = app.udp_selection ∧
    (app.update_sockets res).selected_type = app.selected_type ∧
    (app.update_sockets res).should_quit = app.should_quit :=
  ⟨rfl, rfl, rfl, rfl⟩

/-- C7 counterexample: the display string of the §8 TCP record is not the
spec's `"local[127.0.0.1:80] -> remote[0.0.0.0:0]; pids[1]; state: LISTEN"`
(the format string puts spaces around the colons and after `remote`). -/
theorem tcp_socket_to_string_spec_format_false :
    tcp_socket_to_string scenarioTcp [1] ≠
      "local[127.0.0.1:80] -> remote[0.0.0.0:0]; pids[1]; state: LISTEN" := by
  decide

/-- C7 amended: the display string of the §8 TCP record is exactly
`"local[127.0.0.1 : 80] -> remote [0.0.0.0 : 0]; pids[1]; state: LISTEN"`. -/
theorem tcp_socket_to_string_format :
    tcp_socket_to_string scenarioTcp [1] =
      "local[127.0.0.1 : 80] -> remote [0.0.0.0 : 0]; pids[1]; state: LISTEN" :=
  rfl

/-- C9: each cursor is exposed only while its protocol is focused; the
focused protocol's accessor returns the stored cursor verbatim. -/
theorem focused_only_exposure (app : App) :
    (app.selected_type ≠ SelectedType.Tcp → app.selected_tcp = none) ∧
    (app.selected_type = SelectedType.Tcp → app.selected_tcp = app.tcp_selection) ∧
    (app.selected_type ≠ SelectedType.Udp → app.selected_udp = none) ∧
    (app.selected_type = SelectedType.Udp → app.selected_udp = app.udp_selection) := by
  cases h : app.selected_type <;>
    simp [App.selected_tcp, App.selected_udp, h]

/-- Witness for `focused_only_exposure`: with UDP focused, a stored TCP
cursor is reported as unset. -/
theorem focused_only_exposure_witness :
    App.selected_tcp
      { App.new with selected_type := SelectedType.Udp, tcp_selection := some 2 } = none :=
  (focused_only_exposure
    { App.new with selected_type := SelectedType.Udp, tcp_selection := some 2 }).1 (by decide)

lemma up_select_counter_ok_isSome (cur : Option Nat) (cnt : Nat) (r : Option Nat)
    (h : up_select_counter cur cnt = Except.ok r) : r.isSome := by
  cases cur with
  | none =>
      simp only [up_select_counter] at h
      cases h
      rfl
  | some c =>
      simp only [up_select_counter, checkedSub] at h
      by_cases hc : c > 0
      · rw [if_pos hc] at h
        cases h
        rfl
      · rw [if_neg hc] at h
        by_cases hcnt : 1 ≤ cnt
        · rw [if_pos hcnt] at h
          cases h
          rfl
        · rw [if_neg hcnt] at h
          simp [Except.map] at h

lemma down_select_counter_ok_isSome (cur : Option Nat) (cnt : Nat) (r : Option Nat)
    (h : down_select_counter cur cnt = Except.ok r) : r.isSome := by
  cases cur with
  | none =>
      simp only [down_select_counter] at h
      cases h
      rfl
  | some c =>
      simp only [down_select_counter, checkedSub] at h
      by_cases hcnt : 1 ≤ cnt
      · rw [if_pos hcnt] at h
        simp only [Except.map] at h
        by_cases hge : c ≥ cnt - 1
        · rw [if_pos hge] at h
          cases h
          rfl
        · rw [if_neg hge] at h
          cases h
          rfl
      · rw [if_neg hcnt] at h
        simp [Except.map] at h

lemma on_up_ok_selections (app app' : App) (h : app.on_up = Except.ok app') :
    (app.tcp_selection.isSome → app'.tcp_selection.isSome) ∧
    (app.udp_selection.isSome → app'.udp_selection.isSome) := by
  unfold App.on_up at h
  cases happ : app.selected_type with
  | Nothing =>
      rw [happ] at h
      cases h
      exact ⟨id, id⟩
  | Tcp =>
      rw [happ] at h
      cases hu : up_select_counter app.tcp_selection app.tcp_sockets_count with
      | error e => rw [hu] at h; simp [Except.map] at h
      | ok r =>
          rw [hu] at h
          simp only [Except.map] at h
          cases h
          exact ⟨fun _ => up_select_counter_ok_isSome _ _ _ hu, id⟩
  | Udp =>
      rw [happ] at h
      cases hu : up_select_counter app.udp_selection app.udp_sockets_count with
      | error e => rw [hu] at h; simp [Except.map] at h
      | ok r =>
          rw [hu] at h
          simp only [Except.map] at h
          cases h
          exact ⟨id, fun _ => up_select_counter_ok_isSome _ _ _ hu⟩

lemma on_down_ok_selections (app app' : App) (h : app.on_down = Except.ok app') :
    (app.tcp_selection.isSome → app'.tcp_selection.isSome) ∧
    (app.udp_selection.isSome → app'.udp_selection.isSome) := by
  unfold App.on_down at h
  cases happ : app.selected_type with
  | Nothing =>
      rw [happ] at h
      cases h
      exact ⟨id, id⟩
  | Tcp =>
      rw [happ] at h
      cases hu : down_select_counter app.tcp_selection app.tcp_sockets_count with
      | error e => rw [hu] at h; simp [Except.map] at h
      | ok r =>
          rw [hu] at h
          simp only [Except.map] at h
          cases h
          exact ⟨fun _ => down_select_counter_ok_isSome _ _ _ hu, id⟩
  | Udp =>
      rw [happ] at h
      cases hu : down_select_counter app.udp_selection app.udp_sockets_count with
      | error e => rw [hu] at h; simp [Except.map] at h
      | ok r =>
          rw [hu] at h
          simp only [Except.map] at h
          cases h
          exact ⟨id, fun _ => down_select_counter_ok_isSome _ _ _ hu⟩

lemma on_key_selections (app : App) (c : Char) :
    (app.on_key c).tcp_selection = app.tcp_selection ∧
    (app.on_key c).udp_selection = app.udp_selection := by
  unfold App.on_key
  split <;> exact ⟨rfl, rfl⟩

/-- C10: once a cursor is set it is never unset again: the counter helpers
only ever return `some` when they return, and every public operation either
keeps a set cursor set (`on_up`/`on_down`, when they do not panic) or leaves
both cursors untouched (`on_left`, `on_right`, `on_key`, `update_sockets`,
`on_tick`). -/
theorem cursor_never_unset (app app' app'' : App)
    (res : Except String (List SocketInfo)) (c : Char)
    (hup : app.on_up = Except.ok app')
    (hdown : app.on_down = Except.ok app'') :
    (app.tcp_selection.isSome →
      app'.tcp_selection.isSome ∧ app''.tcp_selection.isSome ∧
      (app.on_left).tcp_selection.isSome ∧ (app.on_right).tcp_selection.isSome ∧
      (app.on_key c).tcp_selection.isSome ∧
      (app.update_sockets res).tcp_selection.isSome ∧
      (app.on_tick res).tcp_selection.isSome) ∧
    (app.udp_selection.isSome →
      app'.udp_selection.isSome ∧ app''.udp_selection.isSome ∧
      (app.on_left).udp_selection.isSome ∧ (app.on_right).udp_selection.isSome ∧
      (app.on_key c).udp_selection.isSome ∧
      (app.update_sockets res).udp_selection.isSome ∧
      (app.on_tick res).udp_selection.isSome) ∧
    (∀ cur cnt r, up_select_counter cur cnt = Except.ok r → r.isSome) ∧
    (∀ cur cnt r, down_select_counter cur cnt = Except.ok r → r.isSome) := by
  refine ⟨?_, ?_, up_select_counter_ok_isSome, down_select_counter_ok_isSome⟩
  · intro htcp
    refine ⟨(on_up_ok_selections app app' hup).1 htcp,
      (on_down_ok_selections app app'' hdown).1 htcp, htcp, htcp, ?_, htcp, htcp⟩
    rw [(on_key_selections app c).1]
    exact htcp
  · intro hudp
    refine ⟨(on_up_ok_selections app app' hup).2 hudp,
      (on_down_ok_selections app app'' hdown).2 hudp, hudp, hudp, ?_, hudp, hudp⟩
    rw [(on_key_selections app c).2]
    exact hudp

/-- Witness for `cursor_never_unset` at `appC10`. -/
theorem cursor_never_unset_witness :
    ((appC10.update_sockets (Except.error "boom")).tcp_selection.isSome ∧
      (appC10.on_left).udp_selection.isSome) := by
  have h := cursor_never_unset appC10
    { appC10 with tcp_selection := some 0 }
    { appC10 with tcp_selection := some 2 }
    (Except.error "boom") 'x' rfl rfl
  exact ⟨(h.1 rfl).2.2.2.2.2.1, (h.2.1 rfl).2.2.1⟩
